import Mathlib

/-!
Shallow embedding of the prompt-optimizer evaluation/optimization pipeline
(`app/api/braintrust-eval/route.ts`, `app/api/langsmith-prompts/route.ts`).

External LLM providers are modelled as oracle functions supplied in an
environment record: each oracle maps the prompt text the route would send to
either a response (`Except.ok`) or a thrown provider error with its message
(`Except.error`).  Everything the routes themselves compute — template
rendering, regex-based JSON extraction, `JSON.parse`, score arithmetic,
summary statistics, the SSE event sequence — is embedded as executable Lean
definitions translated from the TypeScript source.

JavaScript numbers are modelled as exact rationals, except where the source
can produce `NaN` (division by a zero count): there a small `JSNum` type
mirrors IEEE special values as far as the routes observe them (`toFixed`).
-/

namespace PromptOpt

/-! ## Characters used via code points (to stay notation-free) -/

def dollarC : Char := Char.ofNat 36
def ampC : Char := Char.ofNat 38
def backquoteC : Char := Char.ofNat 96
def quoteC : Char := Char.ofNat 39
def lbraceC : Char := Char.ofNat 123
def rbraceC : Char := Char.ofNat 125
def lbrackC : Char := Char.ofNat 91
def rbrackC : Char := Char.ofNat 93

/-! ## JS string helpers -/

/-- Index of the first occurrence of a character, if any. -/
def firstIdx (c : Char) : List Char → Option Nat
  | [] => none
  | d :: rest =>
    if d = c then some 0
    else match firstIdx c rest with
      | some i => some (i + 1)
      | none => none

/-- Index of the last occurrence of a character, if any. -/
def lastIdx (c : Char) : List Char → Option Nat
  | [] => none
  | d :: rest =>
    match lastIdx c rest with
    | some i => some (i + 1)
    | none => if d = c then some 0 else none

/-- Embedding of `response.match(/\[[\s\S]*\]/)` (and the `{...}` analogue):
a greedy regex whose match, when it exists, runs from the first occurrence of
the opening character to the last occurrence of the closing character. -/
def extractDelimited (openC closeC : Char) (s : String) : Option String :=
  let cs := s.toList
  match firstIdx openC cs, lastIdx closeC cs with
  | some i, some j => if i < j then some (String.mk ((cs.drop i).take (j - i + 1))) else none
  | _, _ => none

/-- `text.match(/\[[\s\S]*\]/)`, returning the full match. -/
def extractBrackets (s : String) : Option String := extractDelimited lbrackC rbrackC s

/-- `text.match(/\{[\s\S]*\}/)`, returning the full match. -/
def extractBraces (s : String) : Option String := extractDelimited lbraceC rbraceC s

/-- JS `s.substring(0, n)` (enough of it for this code base). -/
def jsSubstring (s : String) (n : Nat) : String := String.mk (s.toList.take n)

/-- Whitespace stripped by JS `String.prototype.trim` (the ASCII part,
which is all the judge responses here can contain). -/
def isTrimWs (c : Char) : Bool :=
  c.toNat = 32 || c.toNat = 9 || c.toNat = 10 || c.toNat = 11 || c.toNat = 12 || c.toNat = 13

/-- JS `s.trim()`. -/
def jsTrim (s : String) : String :=
  String.mk ((s.toList.dropWhile isTrimWs).reverse.dropWhile isTrimWs).reverse

/-! ## Template renderer: `prompt.replace(/\{\{input\}\}/g, input)`

JavaScript `String.prototype.replace` with a string replacement interprets
`$$`, `$&`, a dollar followed by a backquote, and a dollar followed by an
apostrophe inside the replacement (ECMA-262 GetSubstitution).  The regex has
no capture groups, so `$1`..`$9` and `$<` pass through literally. -/

/-- The placeholder token `{{input}}`. -/
def placeholderChars : List Char := "\x7b\x7binput\x7d\x7d".toList

/-- Split a list at the first occurrence of `pat`: returns the part before
the match and the part after it. -/
def splitFirst (pat : List Char) : List Char → Option (List Char × List Char)
  | [] => if pat.isEmpty then some ([], []) else none
  | c :: cs =>
    if pat.isPrefixOf (c :: cs) then some ([], (c :: cs).drop pat.length)
    else match splitFirst pat cs with
      | some (pre, post) => some (c :: pre, post)
      | none => none

/-- ECMA-262 GetSubstitution for a string replacement with zero capture
groups: `matched` is the matched text, `before` the original text preceding
the match, `after` the original text following it. -/
def getSubstitution (matched before after : List Char) : List Char → List Char
  | [] => []
  | c :: rest =>
    if c = dollarC then
      match rest with
      | [] => [c]
      | d :: rest2 =>
        if d = dollarC then dollarC :: getSubstitution matched before after rest2
        else if d = ampC then matched ++ getSubstitution matched before after rest2
        else if d = backquoteC then before ++ getSubstitution matched before after rest2
        else if d = quoteC then after ++ getSubstitution matched before after rest2
        else c :: d :: getSubstitution matched before after rest2
    else c :: getSubstitution matched before after rest

/-- Global replacement loop: scans left to right, replacing each
non-overlapping occurrence of `pat`; `consumed` is the original text already
scanned (needed for the backquote/apostrophe substitution patterns). -/
def replaceLoop (pat rep : List Char) : Nat → List Char → List Char → List Char
  | 0, _, rem => rem
  | fuel + 1, consumed, rem =>
    match splitFirst pat rem with
    | none => rem
    | some (pre, post) =>
      pre ++ getSubstitution pat (consumed ++ pre) post rep ++
        replaceLoop pat rep fuel (consumed ++ pre ++ pat) post

/-- `prompt.replace(/\{\{input\}\}/g, input)` as used by `runPrompt`,
`executePromptWithGemini` and `runClaudePrompt`. -/
def renderTemplate (template input : String) : String :=
  let t := template.toList
  String.mk (replaceLoop placeholderChars input.toList (t.length + 1) [] t)

/-! ## JSON values and `JSON.parse` -/

/-- JSON values (numbers as exact rationals). -/
inductive Json where
  | null : Json
  | bool (b : Bool) : Json
  | num (q : ℚ) : Json
  | str (s : String) : Json
  | arr (elems : List Json) : Json
  | obj (fields : List (String × Json)) : Json

/-- Property lookup; with duplicate keys `JSON.parse` keeps the last one. -/
def lookupLast (k : String) : List (String × Json) → Option Json
  | [] => none
  | (k2, v) :: rest =>
    match lookupLast k rest with
    | some r => some r
    | none => if k2 = k then some v else none

/-- JS property access `j.k` (`none` plays the role of `undefined`;
property access on a non-object yields `undefined`). -/
def Json.getField (j : Json) (k : String) : Option Json :=
  match j with
  | .obj fields => lookupLast k fields
  | _ => none

/-- JSON whitespace. -/
def isJsonWs (c : Char) : Bool :=
  c = ' ' || c.toNat = 9 || c.toNat = 10 || c.toNat = 13

def skipWs (cs : List Char) : List Char := cs.dropWhile isJsonWs

def hexVal (c : Char) : Option Nat :=
  let n := c.toNat
  if 48 ≤ n ∧ n ≤ 57 then some (n - 48)
  else if 97 ≤ n ∧ n ≤ 102 then some (n - 87)
  else if 65 ≤ n ∧ n ≤ 70 then some (n - 55)
  else none

/-- Body of a JSON string literal (after the opening quote), with escapes. -/
def parseStrChars : Nat → List Char → List Char → Option (String × List Char)
  | 0, _, _ => none
  | fuel + 1, acc, cs =>
    match cs with
    | [] => none
    | c :: rest =>
      if c.toNat = 34 then some (String.mk acc.reverse, rest)
      else if c.toNat = 92 then
        match rest with
        | [] => none
        | e :: rest2 =>
          if e.toNat = 34 then parseStrChars fuel (Char.ofNat 34 :: acc) rest2
          else if e.toNat = 92 then parseStrChars fuel (Char.ofNat 92 :: acc) rest2
          else if e.toNat = 47 then parseStrChars fuel (Char.ofNat 47 :: acc) rest2
          else if e = 'b' then parseStrChars fuel (Char.ofNat 8 :: acc) rest2
          else if e = 'f' then parseStrChars fuel (Char.ofNat 12 :: acc) rest2
          else if e = 'n' then parseStrChars fuel (Char.ofNat 10 :: acc) rest2
          else if e = 'r' then parseStrChars fuel (Char.ofNat 13 :: acc) rest2
          else if e = 't' then parseStrChars fuel (Char.ofNat 9 :: acc) rest2
          else if e = 'u' then
            match rest2 with
            | h1 :: h2 :: h3 :: h4 :: rest3 =>
              match hexVal h1, hexVal h2, hexVal h3, hexVal h4 with
              | some a, some b, some c3, some d =>
                parseStrChars fuel (Char.ofNat (((a * 16 + b) * 16 + c3) * 16 + d) :: acc) rest3
              | _, _, _, _ => none
            | _ => none
          else none
      else if c.toNat < 32 then none
      else parseStrChars fuel (c :: acc) rest

def digitsToNat (ds : List Char) : Nat :=
  ds.foldl (fun acc c => acc * 10 + (c.toNat - 48)) 0

/-- Is the remainder free of a fraction/exponent part, i.e. was the number
a plain integer? -/
def plainIntEnd : List Char → Bool
  | [] => true
  | d :: _ => ¬ (d.toNat = 46 ∨ d = 'e' ∨ d = 'E')

/-- JSON number grammar: optional minus, integer part without leading zeros,
optional fraction, optional exponent. -/
def parseNumber (cs : List Char) : Option (ℚ × List Char) :=
  let signAndRest : Bool × List Char :=
    match cs with
    | c :: rest => if c.toNat = 45 then (true, rest) else (false, cs)
    | [] => (false, cs)
  let neg := signAndRest.1
  let cs1 := signAndRest.2
  match cs1 with
  | [] => none
  | c :: rest =>
    if ¬ c.isDigit then none
    else
      let intPart : Option (Nat × List Char) :=
        if c = '0' then some (0, rest)
        else
          let ds := (c :: rest).takeWhile Char.isDigit
          some (digitsToNat ds, (c :: rest).dropWhile Char.isDigit)
      match intPart with
      | none => none
      | some (ip, cs2) =>
        if plainIntEnd cs2 then some (if neg then -(ip : ℚ) else (ip : ℚ), cs2)
        else
        let fracPart : Option (ℚ × List Char) :=
          match cs2 with
          | d :: cs3 =>
            if d.toNat = 46 then
              let ds := cs3.takeWhile Char.isDigit
              if ds.isEmpty then none
              else some ((digitsToNat ds : ℚ) / ((10 : ℚ) ^ ds.length), cs3.dropWhile Char.isDigit)
            else some (0, cs2)
          | [] => some (0, cs2)
        match fracPart with
        | none => none
        | some (fp, cs4) =>
          let expPart : Option (Bool × Nat × List Char) :=
            match cs4 with
            | e :: cs5 =>
              if e = 'e' ∨ e = 'E' then
                let signExp : Bool × List Char :=
                  match cs5 with
                  | s :: cs6 =>
                    if s.toNat = 45 then (true, cs6)
                    else if s.toNat = 43 then (false, cs6)
                    else (false, cs5)
                  | [] => (false, cs5)
                let ds := signExp.2.takeWhile Char.isDigit
                if ds.isEmpty then none
                else some (signExp.1, digitsToNat ds, signExp.2.dropWhile Char.isDigit)
              else some (false, 0, cs4)
            | [] => some (false, 0, cs4)
          match expPart with
          | none => none
          | some (eneg, ev, cs7) =>
            let base : ℚ := (ip : ℚ) + fp
            let scaled : ℚ := if eneg then base / ((10 : ℚ) ^ ev) else base * ((10 : ℚ) ^ ev)
            some (if neg then -scaled else scaled, cs7)

/-- Parser mode: a value, the rest of an array, or the rest of an object. -/
inductive PMode where
  | value : PMode
  | arrRest (acc : List Json) (first : Bool) : PMode
  | objRest (acc : List (String × Json)) (first : Bool) : PMode

/-- Recursive-descent JSON parser, fuelled for structural recursion. -/
def parseP : Nat → PMode → List Char → Option (Json × List Char)
  | 0, _, _ => none
  | fuel + 1, .value, cs =>
    let cs := skipWs cs
    match cs with
    | [] => none
    | c :: rest =>
      if c = 'n' then
        if ['u', 'l', 'l'].isPrefixOf rest then some (.null, rest.drop 3) else none
      else if c = 't' then
        if ['r', 'u', 'e'].isPrefixOf rest then some (.bool true, rest.drop 3) else none
      else if c = 'f' then
        if ['a', 'l', 's', 'e'].isPrefixOf rest then some (.bool false, rest.drop 4) else none
      else if c.toNat = 34 then
        match parseStrChars (rest.length + 1) [] rest with
        | some (s, cs2) => some (.str s, cs2)
        | none => none
      else if c = lbrackC then parseP fuel (.arrRest [] true) rest
      else if c = lbraceC then parseP fuel (.objRest [] true) rest
      else
        match parseNumber cs with
        | some (q, cs2) => some (.num q, cs2)
        | none => none
  | fuel + 1, .arrRest acc first, cs =>
    let cs := skipWs cs
    match cs with
    | [] => none
    | c :: rest =>
      if c = rbrackC ∧ first then some (.arr acc.reverse, rest)
      else if first then
        match parseP fuel .value cs with
        | some (v, cs2) => parseP fuel (.arrRest (v :: acc) false) cs2
        | none => none
      else if c.toNat = 44 then
        match parseP fuel .value rest with
        | some (v, cs2) => parseP fuel (.arrRest (v :: acc) false) cs2
        | none => none
      else if c = rbrackC then some (.arr acc.reverse, rest)
      else none
  | fuel + 1, .objRest acc first, cs =>
    let cs := skipWs cs
    match cs with
    | [] => none
    | c :: rest =>
      if c = rbraceC then some (.obj acc.reverse, rest)
      else
        let atKey : Option (List Char) :=
          if first then some cs
          else if c.toNat = 44 then some (skipWs rest)
          else none
        match atKey with
        | none => none
        | some cs2 =>
          match cs2 with
          | k :: cs3 =>
            if k.toNat = 34 then
              match parseStrChars (cs3.length + 1) [] cs3 with
              | some (key, cs4) =>
                match skipWs cs4 with
                | colon :: cs5 =>
                  if colon.toNat = 58 then
                    match parseP fuel .value cs5 with
                    | some (v, cs6) => parseP fuel (.objRest ((key, v) :: acc) false) cs6
                    | none => none
                  else none
                | [] => none
              | none => none
            else none
          | [] => none

/-- `JSON.parse(s)`: the whole string must be a single JSON value. -/
def Json.parse (s : String) : Option Json :=
  match parseP (2 * s.length + 4) .value s.toList with
  | some (j, rest) => if skipWs rest = [] then some j else none
  | none => none

/-- JS truthiness of a JSON value that arrived from `JSON.parse`. -/
def jsTruthy : Json → Bool
  | .null => false
  | .bool b => b
  | .num q => q ≠ 0
  | .str s => s ≠ ""
  | .arr _ => true
  | .obj _ => true

/-- Truthiness of `m?.k` for optional `m` (e.g. `testCase.metadata?.expectsJSON`). -/
def jsTruthyField (m : Option Json) (k : String) : Bool :=
  match m with
  | none => false
  | some j =>
    match j.getField k with
    | none => false
    | some v => jsTruthy v

/-- JS strict comparison `x === 0` for a possibly-undefined parsed value. -/
def jsEqNumZero : Option Json → Bool
  | some (.num q) => q = 0
  | _ => false

/-! ## JS numbers where `NaN` can arise, and `Number.prototype.toFixed` -/

/-- A JS number as far as the routes observe it: the only special values a
route can produce are `NaN` and signed infinity, from dividing by a zero
test count. -/
inductive JSNum where
  | nan : JSNum
  | posInf : JSNum
  | negInf : JSNum
  | fin (q : ℚ) : JSNum
deriving DecidableEq

/-- JS division `a / b` for finite operands. -/
def jsDiv (a b : ℚ) : JSNum :=
  if b = 0 then (if a = 0 then .nan else if 0 < a then .posInf else .negInf)
  else .fin (a / b)

/-- Multiplication by the literal `100` (never changes the special values). -/
def jsMul100 : JSNum → JSNum
  | .nan => .nan
  | .posInf => .posInf
  | .negInf => .negInf
  | .fin q => .fin (100 * q)

/-- `x.toFixed(1)` for a non-negative finite value: round to the integer
`n` of tenths closest to `x`, ties picking the larger `n` (ECMA-262). -/
def toFixed1Pos (q : ℚ) : String :=
  let n : ℤ := Int.floor (q * 10 + 1 / 2)
  toString (n / 10) ++ "." ++ toString (n % 10)

/-- `x.toFixed(1)`. -/
def toFixed1 : JSNum → String
  | .nan => "NaN"
  | .posInf => "Infinity"
  | .negInf => "-Infinity"
  | .fin q => if q < 0 then "-" ++ toFixed1Pos (-q) else toFixed1Pos q

/-- `x.toFixed(0)` for a finite value (the only way the routes use it). -/
def toFixed0 (q : ℚ) : String :=
  if q < 0 then "-" ++ toString (Int.floor (-q + 1 / 2))
  else toString (Int.floor (q + 1 / 2))

/-- Decimal expansion of a fractional part, up to `fuel` digits (exact for
the terminating decimals this pipeline produces). -/
def decimalDigits : Nat → ℚ → List Char
  | 0, _ => []
  | fuel + 1, q =>
    if q = 0 then []
    else
      let q10 := q * 10
      let d := Int.floor q10
      Char.ofNat (48 + d.toNat) :: decimalDigits fuel (q10 - d)

/-- JS number-to-string for the finite values interpolated into log
messages. -/
def jsNumToString (q : ℚ) : String :=
  let sign := if q < 0 then "-" else ""
  let a := if q < 0 then -q else q
  let ip := Int.floor a
  let frac := a - ip
  sign ++ toString ip ++ (if frac = 0 then "" else "." ++ String.mk (decimalDigits 17 frac))

/-- JS template-literal stringification of a parsed value (a missing
property prints as `undefined`). -/
def jsDisplayJ : Nat → Json → String
  | _, .null => "null"
  | _, .bool true => "true"
  | _, .bool false => "false"
  | _, .num q => jsNumToString q
  | _, .str s => s
  | 0, .arr _ => ""
  | fuel + 1, .arr xs => String.intercalate "," (xs.map (jsDisplayJ fuel))
  | _, .obj _ => "[object Object]"

def jsDisplay : Option Json → String
  | none => "undefined"
  | some j => jsDisplayJ 100 j

/-! ## Progress events

Each route pushes `{timestamp, phase|step, status, details?}` log records and
finally writes one `complete` or `error` record; the event list below is the
sequence written to the SSE stream, in order.  Timestamps and the `logs`
array embedded in the terminal payloads are not modelled (no claim mentions
them). -/

inductive Status where
  | running : Status
  | completed : Status
  | error : Status
deriving DecidableEq

structure Log where
  phase : String
  status : Status
  details : Option String
deriving DecidableEq

/-! ## The langsmith-prompts route (`app/api/langsmith-prompts/route.ts`) -/

namespace Langsmith

/-- A generated test case, as the loop body consumes it (`testCase.input`
must be a string, `testCase.rubric` an array, else the iteration throws a
`TypeError` at the first property use). -/
structure TestCase where
  input : String
  rubric : List Json

def decodeTestCase (j : PromptOpt.Json) : Option TestCase :=
  match j.getField "input", j.getField "rubric" with
  | some (.str s), some (.arr rs) => some { input := s, rubric := rs }
  | _, _ => none

/-- `TestResult` as pushed by the route: the judge's parsed JSON is read
field by field with no validation, so each field is a possibly-`undefined`
JSON value. -/
structure TestResult where
  input : String
  output : String
  score : Option Json
  failureReason : Option Json
  rubricResults : Option Json

/-- `generateSyntheticDataset` (langsmith variant): try Gemini; any failure
inside the `try` — a thrown provider error, a missing `[...]` match, or a
`JSON.parse` throw — falls through to the Groq fallback.  On the fallback
path a missing match throws the combined-failure message and a `JSON.parse`
failure propagates as a `SyntaxError`. -/
def generateSyntheticDataset (genPrimary : Except String String)
    (genFallback : Except String (Option String)) : Except String (List Json) :=
  let fallbackPath : Except String (List Json) :=
    match genFallback with
    | .error m => .error m
    | .ok content =>
      let response := content.getD ""
      match extractBrackets response with
      | none => .error "Failed to generate test cases with both Gemini and Groq"
      | some s =>
        match Json.parse s with
        | some (.arr es) => .ok es
        | some _ => .error "SyntaxError: Unexpected token in JSON"
        | none => .error "SyntaxError: Unexpected token in JSON"
  match genPrimary with
  | .error _ => fallbackPath
  | .ok response =>
    match extractBrackets response with
    | none => fallbackPath
    | some s =>
      match Json.parse s with
      | some (.arr es) => .ok es
      | some _ => fallbackPath
      | none => fallbackPath

/-- `executePromptWithGemini`: render the template, try the primary
provider, fall back once to the secondary on any thrown error; the
secondary's possibly-missing message content is defaulted with `|| ""`.  A
thrown error from the secondary propagates to the caller. -/
def executePromptWithGemini (primary : String → Except String String)
    (fallback : String → Except String (Option String))
    (prompt input : String) : Except String String :=
  let formattedPrompt := renderTemplate prompt input
  match primary formattedPrompt with
  | .ok t => .ok t
  | .error _ =>
    match fallback formattedPrompt with
    | .ok content => .ok (content.getD "")
    | .error m => .error m

/-- The object `judgeWithClaude` constructs when the judge response has no
`{...}` match. -/
def fallbackJudge (rubric : List Json) : Json :=
  .obj [("score", .num 0),
        ("failureReason", .str "Failed to parse judge response"),
        ("rubricResults", .arr (rubric.map (fun r =>
          .obj [("criterion", r), ("passed", .bool false)])))]

/-- `judgeWithClaude`: a thrown provider error propagates; a missing text
block is defaulted to `"{}"`; a missing `{...}` match yields the fallback
object; otherwise the parsed JSON is returned verbatim (a `JSON.parse`
throw propagates). -/
def judgeWithClaude (rubric : List Json)
    (resp : Except String (Option String)) : Except String Json :=
  match resp with
  | .error m => .error m
  | .ok content =>
    let text := content.getD "\x7b\x7d"
    match extractBraces text with
    | none => .ok (fallbackJudge rubric)
    | some s =>
      match Json.parse s with
      | some j => .ok j
      | none => .error "SyntaxError: Unexpected token in JSON"

/-- `generateOptimizedPrompt`: a thrown provider error propagates; a missing
`{...}` match throws `"Failed to generate optimization"`; a `JSON.parse`
failure propagates; otherwise the parsed JSON is returned with no shape
validation. -/
def generateOptimizedPrompt (resp : Except String (Option String)) :
    Except String Json :=
  match resp with
  | .error m => .error m
  | .ok content =>
    let text := content.getD "\x7b\x7d"
    match extractBraces text with
    | none => .error "Failed to generate optimization"
    | some s =>
      match Json.parse s with
      | some j => .ok j
      | none => .error "SyntaxError: Unexpected token in JSON"

/-- Request body plus the environment checks made before any external call. -/
structure Config where
  prompt : String
  goal : String
  promptName : String
  rubric : List String
  geminiKey : Bool
  langsmithKey : Bool

/-- The external world as the route sees it: one oracle per provider call
site, mapping the text the route sends to the provider's reply (or to a
thrown error).  `nowMs` stands for `Date.now()`. -/
structure Env where
  genPrimary : Except String String
  genFallback : Except String (Option String)
  execPrimary : String → Except String String
  execFallback : String → Except String (Option String)
  judgeResp : String → String → Except String (Option String)
  optimizeResp : Except String (Option String)
  nowMs : Nat

structure Metrics where
  originalPassRate : String
  totalTests : Nat
  failures : Nat

/-- The `evaluation` object of the final `complete` record (its embedded
`logs` array is not modelled). -/
structure Evaluation where
  originalPrompt : String
  optimizedPrompt : String
  promptName : String
  goal : String
  originalResults : List TestResult
  metrics : Metrics
  reasoning : Option Json
  changes : List Json

/-- One record written to the SSE stream. -/
inductive Event where
  | log (l : PromptOpt.Log) : Event
  | complete (evaluation : Evaluation) : Event
  | errorEvt (error : String) (details : Option String) : Event

def Event.isComplete : Event → Bool
  | .complete _ => true
  | _ => false

def Event.isErrorEvt : Event → Bool
  | .errorEvt _ _ => true
  | _ => false

def completePayloads (events : List Event) : List Evaluation :=
  events.filterMap (fun e => match e with | .complete ev => some ev | _ => none)

/-- The two records the outer `catch` writes. -/
def catchEvents (m : String) : List Event :=
  [.log { phase := "Error occurred", status := .error, details := some m },
   .errorEvt "Failed to optimize prompt" (some m)]

/-- `results.filter((r) => r.score === 0)`. -/
def lsFailed (results : List TestResult) : List TestResult :=
  results.filter (fun r => jsEqNumZero r.score)

/-- Phase-3 loop: per test case, render+execute, judge, push a result;
emits the per-test progress logs; a thrown error stops the loop and
propagates (the logs already written stay on the stream). -/
def runTestsAux (execPrimary : String → Except String String)
    (execFallback : String → Except String (Option String))
    (judgeResp : String → String → Except String (Option String))
    (prompt : String) (total : Nat) :
    List Json → Nat → (List Log × Except String (List TestResult))
  | [], _ => ([], .ok [])
  | j :: rest, idx =>
    match decodeTestCase j with
    | none => ([], .error "TypeError: Cannot read properties of undefined")
    | some tc =>
      let runningLog : Log :=
        { phase := "Test " ++ toString (idx + 1) ++ "/" ++ toString total,
          status := .running,
          details := some ("Input: " ++ jsSubstring tc.input 50 ++ "...") }
      match executePromptWithGemini execPrimary execFallback prompt tc.input with
      | .error m => ([runningLog], .error m)
      | .ok output =>
        match judgeWithClaude tc.rubric (judgeResp tc.input output) with
        | .error m => ([runningLog], .error m)
        | .ok jr =>
          let r : TestResult :=
            { input := tc.input, output := output,
              score := jr.getField "score",
              failureReason := jr.getField "failureReason",
              rubricResults := jr.getField "rubricResults" }
          let doneLog : Log :=
            { phase := "Test " ++ toString (idx + 1) ++ " completed",
              status := .completed,
              details := some ("Score: " ++ jsDisplay (jr.getField "score")) }
          let next := runTestsAux execPrimary execFallback judgeResp prompt total rest (idx + 1)
          (runningLog :: doneLog :: next.1, next.2.map (fun rs => r :: rs))

/-- Phase-5 A/B loop over the same test cases with the optimized prompt
(no per-test logs in the source). -/
def runOptLoop (execPrimary : String → Except String String)
    (execFallback : String → Except String (Option String))
    (judgeResp : String → String → Except String (Option String))
    (optimizedPrompt : String) : List Json → Except String (List TestResult)
  | [] => .ok []
  | j :: rest =>
    match decodeTestCase j with
    | none => .error "TypeError: Cannot read properties of undefined"
    | some tc =>
      match executePromptWithGemini execPrimary execFallback optimizedPrompt tc.input with
      | .error m => .error m
      | .ok output =>
        match judgeWithClaude tc.rubric (judgeResp tc.input output) with
        | .error m => .error m
        | .ok jr =>
          (runOptLoop execPrimary execFallback judgeResp optimizedPrompt rest).map
            (fun rs =>
              ({ input := tc.input, output := output,
                 score := jr.getField "score",
                 failureReason := jr.getField "failureReason",
                 rubricResults := jr.getField "rubricResults" } : TestResult) :: rs)

/-- The fields of the optimizer's parsed JSON that the route dereferences;
a missing/ill-typed `prompt` or `changes` makes the route throw at the
first dereference, which the outer catch turns into an error event. -/
structure Optimization where
  prompt : String
  reasoning : Option Json
  changes : List Json

def decodeOptimization (j : Json) : Option Optimization :=
  match j.getField "prompt", j.getField "changes" with
  | some (.str p), some (.arr cs) =>
    some { prompt := p, reasoning := j.getField "reasoning", changes := cs }
  | _, _ => none

def completeEvent (cfg : Config) (fullPromptName : String)
    (results : List TestResult) (failures : Nat) (optimizedPrompt : String)
    (reasoning : Option Json) (changes : List Json) : Event :=
  .complete
    { originalPrompt := cfg.prompt,
      optimizedPrompt := optimizedPrompt,
      promptName := fullPromptName,
      goal := cfg.goal,
      originalResults := results,
      metrics :=
        { originalPassRate :=
            toFixed1 (jsMul100 (jsDiv ((results.length : ℚ) - (failures : ℚ)) (results.length : ℚ))),
          totalTests := results.length,
          failures := failures },
      reasoning := reasoning,
      changes := changes }

/-- Phases 4–5 plus the final write, once the phase-3 results exist. -/
def afterTests (cfg : Config) (env : Env) (fullPromptName : String)
    (testCases : List Json) (results : List TestResult) : List Event :=
  let failedResults := lsFailed results
  let testsDone : Event :=
    .log { phase := "Tests completed", status := .completed,
           details := some (toString failedResults.length ++ "/" ++ toString results.length ++ " tests failed") }
  if failedResults.length > 0 then
    testsDone ::
    .log { phase := "Analyzing failures", status := .running,
           details := some "Creating failure dataset in LangSmith" } ::
    .log { phase := "Generating optimized prompt", status := .running,
           details := some "Claude analyzing failure patterns" } ::
    (match generateOptimizedPrompt env.optimizeResp with
     | .error m => catchEvents m
     | .ok oj =>
       match decodeOptimization oj with
       | none => catchEvents "TypeError: Cannot read properties of undefined"
       | some opt =>
         .log { phase := "Optimization complete", status := .completed,
                details := some ("Generated improved prompt with " ++ toString opt.changes.length ++ " changes") } ::
         .log { phase := "Testing optimized prompt", status := .running,
                details := some "Running A/B comparison" } ::
         (match runOptLoop env.execPrimary env.execFallback env.judgeResp opt.prompt testCases with
          | .error m => catchEvents m
          | .ok optimizedResults =>
            [.log { phase := "A/B test complete", status := .completed,
                    details := some ("Original: " ++ toString failedResults.length ++
                      " failures, Optimized: " ++ toString (lsFailed optimizedResults).length ++ " failures") },
             completeEvent cfg fullPromptName results failedResults.length opt.prompt opt.reasoning opt.changes]))
  else
    [testsDone,
     .log { phase := "All tests passed", status := .completed,
            details := some "No optimization needed - prompt is already performing well!" },
     completeEvent cfg fullPromptName results failedResults.length cfg.prompt (some (.str "")) []]

/-- The whole POST handler body as the sequence of SSE records it writes. -/
def pipeline (cfg : Config) (env : Env) : List Event :=
  if cfg.prompt = "" ∨ cfg.goal = "" ∨ cfg.promptName = "" then
    [.log { phase := "Error", status := .error, details := some "Missing required fields" },
     .errorEvt "Missing prompt, goal, or promptName" none]
  else if ¬ cfg.geminiKey then
    [.log { phase := "Error", status := .error, details := some "Gemini API key not configured" },
     .errorEvt "Gemini API key not configured"
       (some "Please add GEMINI_API_KEY to your environment variables")]
  else if ¬ cfg.langsmithKey then
    [.log { phase := "Error", status := .error, details := some "LangSmith API key not configured" },
     .errorEvt "LangSmith API key not configured"
       (some "Please add LANGSMITH_API_KEY to your environment variables")]
  else
    let promptVersion := "v" ++ toString env.nowMs
    let fullPromptName := cfg.promptName ++ "-" ++ promptVersion
    .log { phase := "Saving to Prompt Hub", status := .running,
           details := some ("Saving as \"" ++ cfg.promptName ++ "\"") } ::
    .log { phase := "Prompt saved", status := .completed,
           details := some ("Version: " ++ promptVersion) } ::
    .log { phase := "Generating test dataset", status := .running,
           details := some "Using Gemini 2.0 Flash to create 2 test cases" } ::
    (match generateSyntheticDataset env.genPrimary env.genFallback with
     | .error m => catchEvents m
     | .ok testCases =>
       .log { phase := "Dataset generated", status := .completed,
              details := some ("Created " ++ toString testCases.length ++ " test cases") } ::
       .log { phase := "Running tests", status := .running,
              details := some "Executing prompt with Gemini 2.0 Flash" } ::
       (let tr := runTestsAux env.execPrimary env.execFallback env.judgeResp
          cfg.prompt testCases.length testCases 0
        (tr.1.map Event.log) ++
          match tr.2 with
          | .error m => catchEvents m
          | .ok results => afterTests cfg env fullPromptName testCases results))

end Langsmith

/-! ## The braintrust-eval route (`app/api/braintrust-eval/route.ts`) -/

namespace Braintrust

/-- A generated test case as the loop body consumes it: `input` must be a
string (the first property use is `testCase.input.substring`, which throws
otherwise); `expected` and `metadata` are used without validation. -/
structure TestCase where
  input : String
  expected : Option Json
  metadata : Option Json

def decodeTestCase (j : PromptOpt.Json) : Option TestCase :=
  match j.getField "input" with
  | some (.str s) =>
    some { input := s, expected := j.getField "expected", metadata := j.getField "metadata" }
  | _ => none

structure Scores where
  factuality : ℚ
  battle : ℚ
  jsonValidity : ℚ
  tone : ℚ
  overall : ℚ
deriving DecidableEq

structure TestResult where
  input : String
  output : String
  expected : Option Json
  scores : Scores
  metadata : Option Json

/-- `generateSyntheticDataset` (braintrust variant): same structure as the
langsmith one, different combined-failure message. -/
def generateSyntheticDataset (genPrimary : Except String String)
    (genFallback : Except String (Option String)) : Except String (List Json) :=
  let fallbackPath : Except String (List Json) :=
    match genFallback with
    | .error m => .error m
    | .ok content =>
      let response := content.getD ""
      match extractBrackets response with
      | none => .error "Failed to generate synthetic dataset with both Gemini and Groq"
      | some s =>
        match Json.parse s with
        | some (.arr es) => .ok es
        | some _ => .error "SyntaxError: Unexpected token in JSON"
        | none => .error "SyntaxError: Unexpected token in JSON"
  match genPrimary with
  | .error _ => fallbackPath
  | .ok response =>
    match extractBrackets response with
    | none => fallbackPath
    | some s =>
      match Json.parse s with
      | some (.arr es) => .ok es
      | some _ => fallbackPath
      | none => fallbackPath

/-- `runPrompt`: render and call Anthropic (no fallback; a thrown error
propagates); a response without a text block yields `""`. -/
def runPrompt (runResp : String → Except String (Option String))
    (prompt input : String) : Except String String :=
  let formattedPrompt := renderTemplate prompt input
  match runResp formattedPrompt with
  | .ok content => .ok (content.getD "")
  | .error m => .error m

/-- Last `0`/`1` character of the trimmed response (`match(/[01]/g)`,
defaulting to `"0"`). -/
def last01 (s : String) : Char :=
  ((s.toList.filter (fun c => c = '0' || c = '1')).getLast?).getD '0'

/-- `scoreFactuality`: a thrown judge error is caught and scores 0; a
missing text block reads as `"0"`. -/
def scoreFactuality (resp : Except String (Option String)) : ℚ :=
  match resp with
  | .error _ => 0
  | .ok content =>
    let response := match content with | some t => jsTrim t | none => "0"
    if last01 response = '1' then 1 else 0

/-- `scoreBattle`: same response handling as `scoreFactuality`. -/
def scoreBattle (resp : Except String (Option String)) : ℚ :=
  match resp with
  | .error _ => 0
  | .ok content =>
    let response := match content with | some t => jsTrim t | none => "0"
    if last01 response = '1' then 1 else 0

/-- `scoreTone`: returns 1 up front when no tone was specified; otherwise
the response must be exactly `"1"`; a thrown error scores 0. -/
def scoreTone (expectedToneTruthy : Bool) (resp : Except String (Option String)) : ℚ :=
  if ¬ expectedToneTruthy then 1
  else
    match resp with
    | .error _ => 0
    | .ok content =>
      let response := match content with | some t => jsTrim t | none => "0"
      if response = "1" then 1 else 0

/-- `evaluateTestCase`: the four dimension scores and their average.  The
JSON dimension passes automatically unless `metadata?.expectsJSON` is
truthy, in which case it checks `JSON.parse(output)`; the tone dimension
passes automatically unless `metadata?.expectedTone` is truthy. -/
def evaluateTestCase (factResp battleResp toneResp : Except String (Option String))
    (tc : TestCase) (output : String) : Scores :=
  let factuality := scoreFactuality factResp
  let battle := scoreBattle battleResp
  let jsonValidity : ℚ :=
    if jsTruthyField tc.metadata "expectsJSON" then
      if (Json.parse output).isSome then 1 else 0
    else 1
  let tone : ℚ :=
    if jsTruthyField tc.metadata "expectedTone" then scoreTone true toneResp
    else 1
  { factuality := factuality, battle := battle, jsonValidity := jsonValidity,
    tone := tone, overall := (factuality + battle + jsonValidity + tone) / 4 }

/-- `getImprovedPrompts`: everything is inside one `try`; a thrown provider
error, a missing `[...]` match, or a `JSON.parse` throw all end in `return
[]`. -/
def getImprovedPrompts (resp : Except String (Option String)) : List Json :=
  match resp with
  | .error _ => []
  | .ok content =>
    let response := content.getD ""
    match extractBrackets response with
    | none => []
    | some s =>
      match Json.parse s with
      | some (.arr xs) => xs
      | some _ => []
      | none => []

/-- `results.filter((r) => r.scores.overall < 0.8)` — the failing set
passed to `getImprovedPrompts`. -/
def failedTests (results : List TestResult) : List TestResult :=
  results.filter (fun r => r.scores.overall < 4 / 5)

structure Summary where
  total_tests : Nat
  passed_tests : Nat
  failed_tests : Nat
  success_rate : String
  average_score : String
deriving DecidableEq

/-- The summary block of the final `complete` record (`0/0` divisions go
through JS `NaN`). -/
def summaryOf (results : List TestResult) : Summary :=
  let totalTests := results.length
  let passedTests := (results.filter (fun r => r.scores.overall ≥ 4 / 5)).length
  let avgScore := jsDiv (results.foldl (fun s r => s + r.scores.overall) 0) (totalTests : ℚ)
  { total_tests := totalTests,
    passed_tests := passedTests,
    failed_tests := (failedTests results).length,
    success_rate := toFixed1 (jsMul100 (jsDiv (passedTests : ℚ) (totalTests : ℚ))),
    average_score := toFixed1 (jsMul100 avgScore) }

structure Config where
  prompt : String
  geminiKey : Bool

structure Env where
  genPrimary : Except String String
  genFallback : Except String (Option String)
  runResp : String → Except String (Option String)
  factResp : String → String → Except String (Option String)
  battleResp : String → String → Except String (Option String)
  toneResp : String → String → Except String (Option String)
  improveResp : Except String (Option String)

/-- The `evaluation` object of the final `complete` record (its embedded
`logs` array is not modelled). -/
structure Evaluation where
  prompt : String
  summary : Summary
  results : List TestResult
  improvedPrompts : List Json
  syntheticDataset : List Json

inductive Event where
  | log (l : PromptOpt.Log) : Event
  | complete (evaluation : Evaluation) : Event
  | errorEvt (error : String) (details : Option String) : Event

def Event.isComplete : Event → Bool
  | .complete _ => true
  | _ => false

def Event.isErrorEvt : Event → Bool
  | .errorEvt _ _ => true
  | _ => false

def completePayloads (events : List Event) : List Evaluation :=
  events.filterMap (fun e => match e with | .complete ev => some ev | _ => none)

def catchEvents (m : String) : List Event :=
  [.log { phase := "Error occurred", status := .error, details := some m },
   .errorEvt "Failed to run Braintrust evaluation" (some m)]

/-- Step-2 loop: run the prompt, score it, push the result; `runPrompt`
has no fallback here, so a thrown provider error aborts the loop. -/
def runTestsAux (runResp : String → Except String (Option String))
    (factResp battleResp toneResp : String → String → Except String (Option String))
    (prompt : String) (total : Nat) :
    List Json → Nat → (List Log × Except String (List TestResult))
  | [], _ => ([], .ok [])
  | j :: rest, idx =>
    match decodeTestCase j with
    | none => ([], .error "TypeError: Cannot read properties of undefined")
    | some tc =>
      let runningLog : Log :=
        { phase := "Evaluating test " ++ toString (idx + 1) ++ "/" ++ toString total,
          status := .running,
          details := some ("Input: " ++ jsSubstring tc.input 50 ++ "...") }
      match runPrompt runResp prompt tc.input with
      | .error m => ([runningLog], .error m)
      | .ok output =>
        let scores := evaluateTestCase (factResp tc.input output)
          (battleResp tc.input output) (toneResp tc.input output) tc output
        let r : TestResult :=
          { input := tc.input, output := output, expected := tc.expected,
            scores := scores, metadata := tc.metadata }
        let doneLog : Log :=
          { phase := "Test " ++ toString (idx + 1) ++ " completed",
            status := .completed,
            details := some ("Score: " ++ toFixed0 (scores.overall * 100) ++ "%") }
        let next := runTestsAux runResp factResp battleResp toneResp prompt total rest (idx + 1)
        (runningLog :: doneLog :: next.1, next.2.map (fun rs => r :: rs))

/-- Steps 3–5 plus the final write, once the step-2 results exist. -/
def afterTests (cfg : Config) (env : Env) (testCases : List Json)
    (results : List TestResult) : List Event :=
  let allDone : Event :=
    .log { phase := "All tests completed", status := .completed,
           details := some (toString results.length ++ " tests executed") }
  let failed := failedTests results
  let improvedBlock : List Event × List Json :=
    if failed.length > 0 then
      let improvedPrompts := getImprovedPrompts env.improveResp
      ([.log { phase := "Analyzing failures", status := .running,
               details := some (toString failed.length ++ " test(s) failed - generating improvements") },
        .log { phase := "Improvement suggestions ready", status := .completed,
               details := some ("Generated " ++ toString improvedPrompts.length ++ " improved prompt versions") }],
       improvedPrompts)
    else
      ([.log { phase := "All tests passed", status := .completed,
               details := some "No improvements needed - prompt performed well!" }], [])
  allDone :: improvedBlock.1 ++
    [.log { phase := "Evaluation complete", status := .completed,
            details := some ("Success rate: " ++
              toFixed1 (jsMul100 (jsDiv
                ((results.filter (fun r => r.scores.overall ≥ 4 / 5)).length : ℚ)
                (results.length : ℚ))) ++ "%") },
     .complete { prompt := cfg.prompt, summary := summaryOf results, results := results,
                 improvedPrompts := improvedBlock.2.take 3, syntheticDataset := testCases }]

/-- The whole POST handler body as the sequence of SSE records it writes. -/
def pipeline (cfg : Config) (env : Env) : List Event :=
  if cfg.prompt = "" then
    [.log { phase := "Error", status := .error, details := some "Prompt string is required" },
     .errorEvt "Prompt string is required" none]
  else if ¬ cfg.geminiKey then
    [.log { phase := "Error", status := .error, details := some "GEMINI_API_KEY not configured" },
     .errorEvt "GEMINI_API_KEY not configured" none]
  else
    .log { phase := "Analyzing prompt", status := .running, details := none } ::
    .log { phase := "Generating synthetic dataset with Gemini Flash 2.5",
           status := .running, details := none } ::
    (match generateSyntheticDataset env.genPrimary env.genFallback with
     | .error m => catchEvents m
     | .ok testCases =>
       .log { phase := "Dataset generation complete", status := .completed,
              details := some ("Generated " ++ toString testCases.length ++ " test cases") } ::
       .log { phase := "Running evaluations", status := .running,
              details := some "Testing prompt against dataset" } ::
       (let tr := runTestsAux env.runResp env.factResp env.battleResp env.toneResp
          cfg.prompt testCases.length testCases 0
        (tr.1.map Event.log) ++
          match tr.2 with
          | .error m => catchEvents m
          | .ok results => afterTests cfg env testCases results))

end Braintrust

/-! ## Derived predicates used in statements -/

/-- The extraction-plus-parse step shared by both `generateSyntheticDataset`
variants, viewed on its own: first `[...]` match, then `JSON.parse`,
expecting an array. -/
def parsedDatasetArray (response : String) : Option (List Json) :=
  match extractBrackets response with
  | none => none
  | some s =>
    match Json.parse s with
    | some (.arr es) => some es
    | _ => none

/-- Does every entry of `j.rubricResults` have `passed === true`?
(Vacuously true when the field is missing or not an array.) -/
def allRubricPassed (j : Json) : Bool :=
  match j.getField "rubricResults" with
  | some (.arr rs) =>
    rs.all (fun rr =>
      match rr.getField "passed" with
      | some (.bool true) => true
      | _ => false)
  | _ => true

/-- Does every entry of `j.rubricResults` have `passed === false`? -/
def allRubricFailed (j : Json) : Bool :=
  match j.getField "rubricResults" with
  | some (.arr rs) =>
    rs.all (fun rr =>
      match rr.getField "passed" with
      | some (.bool false) => true
      | _ => false)
  | _ => true

/-! ## Concrete fixtures for witnesses and counterexamples -/

def lsCfg1 : Langsmith.Config :=
  { prompt := "Answer: \x7b\x7binput\x7d\x7d", goal := "Evaluate arithmetic answers",
    promptName := "math-prompt", rubric := ["must state 4"],
    geminiKey := true, langsmithKey := true }

def lsDatasetResponse : String :=
  "[\x7b\"input\": \"2+2?\", \"rubric\": [\"must state 4\"]\x7d]"

def lsTcJson : Json :=
  Json.obj [("input", Json.str "2+2?"), ("rubric", Json.arr [Json.str "must state 4"])]

def lsDatasetJson : List Json := [lsTcJson]

def lsGoodJudgeResp : String :=
  "\x7b\"score\": 1, \"rubricResults\": [\x7b\"criterion\": \"must state 4\", \"passed\": true\x7d]\x7d"

def lsEnvBase : Langsmith.Env :=
  { genPrimary := .ok lsDatasetResponse,
    genFallback := .error "groq down",
    execPrimary := fun _ => .ok "4",
    execFallback := fun _ => .error "fallback provider down",
    judgeResp := fun _ _ => .ok (some lsGoodJudgeResp),
    optimizeResp := .ok (some "\x7b\"prompt\": \"better\", \"reasoning\": \"r\", \"changes\": [\"c1\"]\x7d"),
    nowMs := 1700000000000 }

def lsEnvBothFail : Langsmith.Env :=
  { lsEnvBase with execPrimary := fun _ => .error "primary provider down" }

def lsEnvFallbackText : Langsmith.Env :=
  { lsEnvBase with
    execPrimary := fun _ => .error "primary provider down",
    execFallback := fun _ => .ok (some "fallback text") }

def lsEnvFailingJudge : Langsmith.Env :=
  { lsEnvBase with
    judgeResp := fun _ _ => .ok (some "\x7b\"score\": 0, \"failureReason\": \"wrong\", \"rubricResults\": []\x7d") }

def lsEnvFailingJudgeBadOpt : Langsmith.Env :=
  { lsEnvFailingJudge with optimizeResp := .ok (some "no structured output") }

def lsEnvEmptyDataset : Langsmith.Env :=
  { lsEnvBase with genPrimary := .ok "[]" }

def btCfg1 : Braintrust.Config :=
  { prompt := "Reply to \x7b\x7binput\x7d\x7d", geminiKey := true }

def btEnvBase : Braintrust.Env :=
  { genPrimary := .ok "[\x7b\"input\": \"q\", \"expected\": \"a\"\x7d]",
    genFallback := .error "groq down",
    runResp := fun _ => .ok (some "out"),
    factResp := fun _ _ => .ok (some "1"),
    battleResp := fun _ _ => .ok (some "1"),
    toneResp := fun _ _ => .ok (some "1"),
    improveResp := .ok (some "no valid output") }

def btEnvFailing : Braintrust.Env :=
  { btEnvBase with
    factResp := fun _ _ => .ok (some "0"),
    battleResp := fun _ _ => .ok (some "0") }

def btEnvEmptyDataset : Braintrust.Env :=
  { btEnvBase with genPrimary := .ok "dataset: []" }

def btTcQ : Json := Json.obj [("input", Json.str "q"), ("expected", Json.str "a")]

/-- The result the braintrust loop records for `btTcQ` under `btEnvFailing`
(factuality and battle judged 0, JSON and tone inapplicable). -/
def btResFail : Braintrust.TestResult :=
  { input := "q", output := "out", expected := some (Json.str "a"),
    scores := { factuality := 0, battle := 0, jsonValidity := 1, tone := 1,
                overall := (0 + 0 + 1 + 1) / 4 },
    metadata := none }

def btResA : Braintrust.TestResult :=
  { input := "a", output := "out a", expected := none,
    scores := { factuality := 1, battle := 0, jsonValidity := 1, tone := 1, overall := 3 / 4 },
    metadata := none }

def btResB : Braintrust.TestResult :=
  { input := "b", output := "out b", expected := none,
    scores := { factuality := 1, battle := 1, jsonValidity := 1, tone := 1, overall := 4 / 5 },
    metadata := none }

/-! # Theorems -/

/-- Helper: the strict-below-0.8 and at-least-0.8 filters partition any
result list. -/
theorem btFilterPartition (results : List Braintrust.TestResult) :
    (results.filter (fun r => r.scores.overall ≥ 4 / 5)).length +
      (results.filter (fun r => r.scores.overall < 4 / 5)).length = results.length := by
  induction results with
  | nil => rfl
  | cons r rs ih =>
    simp only [List.filter_cons, decide_eq_true_eq, ge_iff_le]
    simp only [ge_iff_le] at ih
    rcases lt_or_le r.scores.overall (4 / 5 : ℚ) with h | h
    · rw [if_neg (not_le.mpr h), if_pos h]
      simp only [List.length_cons]
      omega
    · rw [if_pos h, if_neg (not_lt.mpr h)]
      simp only [List.length_cons]
      omega

/-- Helper: the judge's parse-failure fallback object marks every listed
criterion as failed. -/
theorem allRubricFailed_fallbackJudge (rubric : List Json) :
    allRubricFailed (Langsmith.fallbackJudge rubric) = true := by
  simp only [allRubricFailed, Langsmith.fallbackJudge, Json.getField, lookupLast,
    List.all_map]
  simp [Function.comp, Json.getField, lookupLast]

/-- C2: the Template Renderer does not insert the input literally — JS
`String.replace` expands `$`-patterns in the replacement string, so the
input `"$&"` is replaced by the matched placeholder token itself rather
than by the literal input, and the claimed length identity fails there. -/
theorem C2_dollar_substitution :
    renderTemplate "Answer: \x7b\x7binput\x7d\x7d" "$&" = "Answer: \x7b\x7binput\x7d\x7d" ∧
    renderTemplate "Answer: \x7b\x7binput\x7d\x7d" "$&" ≠ "Answer: $&" := by
  exact ⟨rfl, by decide⟩

/-- C3: `scores.overall` is the unweighted arithmetic mean of the four
dimension scores, and an inapplicable dimension (no JSON required, no tone
specified) contributes 1; in particular with tone unset the overall is
`mean(factuality, battle, jsonValidity, 1)`. -/
theorem C3_overall_is_mean (factResp battleResp toneResp : Except String (Option String))
    (tc : Braintrust.TestCase) (output : String) :
    (Braintrust.evaluateTestCase factResp battleResp toneResp tc output).overall =
      ((Braintrust.evaluateTestCase factResp battleResp toneResp tc output).factuality +
       (Braintrust.evaluateTestCase factResp battleResp toneResp tc output).battle +
       (Braintrust.evaluateTestCase factResp battleResp toneResp tc output).jsonValidity +
       (Braintrust.evaluateTestCase factResp battleResp toneResp tc output).tone) / 4 ∧
    (jsTruthyField tc.metadata "expectsJSON" = false →
      (Braintrust.evaluateTestCase factResp battleResp toneResp tc output).jsonValidity = 1) ∧
    (jsTruthyField tc.metadata "expectedTone" = false →
      (Braintrust.evaluateTestCase factResp battleResp toneResp tc output).tone = 1 ∧
      (Braintrust.evaluateTestCase factResp battleResp toneResp tc output).overall =
        ((Braintrust.evaluateTestCase factResp battleResp toneResp tc output).factuality +
         (Braintrust.evaluateTestCase factResp battleResp toneResp tc output).battle +
         (Braintrust.evaluateTestCase factResp battleResp toneResp tc output).jsonValidity + 1) / 4) := by
  refine ⟨rfl, fun h => ?_, fun h => ?_⟩
  · simp [Braintrust.evaluateTestCase, h]
  · constructor
    · simp [Braintrust.evaluateTestCase, h]
    · simp [Braintrust.evaluateTestCase, h]

/-- C3 witness: a concrete judgment with tone unset. -/
theorem C3_witness :
    (Braintrust.evaluateTestCase (.ok (some "1")) (.ok (some "0")) (.error "down")
      { input := "q", expected := none, metadata := none } "out").jsonValidity = 1 ∧
    (Braintrust.evaluateTestCase (.ok (some "1")) (.ok (some "0")) (.error "down")
      { input := "q", expected := none, metadata := none } "out").tone = 1 ∧
    (Braintrust.evaluateTestCase (.ok (some "1")) (.ok (some "0")) (.error "down")
      { input := "q", expected := none, metadata := none } "out").overall =
      ((Braintrust.evaluateTestCase (.ok (some "1")) (.ok (some "0")) (.error "down")
        { input := "q", expected := none, metadata := none } "out").factuality +
       (Braintrust.evaluateTestCase (.ok (some "1")) (.ok (some "0")) (.error "down")
        { input := "q", expected := none, metadata := none } "out").battle +
       (Braintrust.evaluateTestCase (.ok (some "1")) (.ok (some "0")) (.error "down")
        { input := "q", expected := none, metadata := none } "out").jsonValidity + 1) / 4 := by
  have h := C3_overall_is_mean (.ok (some "1")) (.ok (some "0")) (.error "down")
    { input := "q", expected := none, metadata := none } "out"
  exact ⟨h.2.1 (by decide), (h.2.2 (by decide)).1, (h.2.2 (by decide)).2⟩

/-- C4: the summary counts satisfy `total = len(results)` and
`passed + failed = total`; the partition uses the fixed threshold 0.8 and
strict inequality for failing, so an overall of 0.75 lands in the failing
set (the list handed to the Optimizer) and an overall of 0.8 does not. -/
theorem C4_summary_partition (results : List Braintrust.TestResult) :
    (Braintrust.summaryOf results).total_tests = results.length ∧
    (Braintrust.summaryOf results).passed_tests + (Braintrust.summaryOf results).failed_tests =
      (Braintrust.summaryOf results).total_tests ∧
    (∀ r, r ∈ results → r.scores.overall = 3 / 4 → r ∈ Braintrust.failedTests results) ∧
    (∀ r, r.scores.overall = 4 / 5 → r ∉ Braintrust.failedTests results) := by
  refine ⟨rfl, ?_, ?_, ?_⟩
  · simpa [Braintrust.summaryOf, Braintrust.failedTests] using btFilterPartition results
  · intro r hr h
    simp only [Braintrust.failedTests, List.mem_filter, decide_eq_true_eq]
    exact ⟨hr, by rw [h]; norm_num⟩
  · intro r h
    simp only [Braintrust.failedTests, List.mem_filter, decide_eq_true_eq, h]
    simp

/-- C4 witness: a two-element list with overall scores 0.75 and 0.8. -/
theorem C4_witness :
    (Braintrust.summaryOf [btResA, btResB]).passed_tests +
      (Braintrust.summaryOf [btResA, btResB]).failed_tests =
      (Braintrust.summaryOf [btResA, btResB]).total_tests ∧
    btResA ∈ Braintrust.failedTests [btResA, btResB] ∧
    btResB ∉ Braintrust.failedTests [btResA, btResB] := by
  have h := C4_summary_partition [btResA, btResB]
  exact ⟨h.2.1, h.2.2.1 btResA (by simp) rfl, h.2.2.2 btResB rfl⟩

/-- C5 counterexample: a completion response whose bracketed substring
parses as a JSON array of bare numbers — no element has an `input` field —
is accepted by the generator without any failure, contradicting the claimed
shape validation. -/
theorem C5_counterexample :
    Braintrust.generateSyntheticDataset (.ok "[1,2,3]") (.error "unused") =
      .ok [Json.num 1, Json.num 2, Json.num 3] ∧
    ([Json.num 1, Json.num 2, Json.num 3].all
      (fun j => (j.getField "input").isNone)) = true := by
  exact ⟨rfl, rfl⟩

/-- C5 (amended): the generator fails when no `[...]` substring exists in
either provider's response, and also when the extracted substring of the
fallback's response is not valid JSON (the `JSON.parse` throw propagates as
a `SyntaxError`, whether the primary path failed on its provider call or on
its own extraction); otherwise it accepts any string whose match parses as
a JSON array — the element shape (an `input` field) is never validated;
when generation fails, the pipeline emits an `error` event and no
`complete` event. -/
theorem C5_amended :
    (∀ rp rf : String, extractBrackets rp = none → extractBrackets rf = none →
      Braintrust.generateSyntheticDataset (.ok rp) (.ok (some rf)) =
        .error "Failed to generate synthetic dataset with both Gemini and Groq") ∧
    (∀ rp rf s : String, extractBrackets rp = none →
      extractBrackets rf = some s → Json.parse s = none →
      Braintrust.generateSyntheticDataset (.ok rp) (.ok (some rf)) =
        .error "SyntaxError: Unexpected token in JSON") ∧
    (∀ m rf s : String, extractBrackets rf = some s → Json.parse s = none →
      Braintrust.generateSyntheticDataset (.error m) (.ok (some rf)) =
        .error "SyntaxError: Unexpected token in JSON") ∧
    (∀ (rp s : String) (es : List Json) (fb : Except String (Option String)),
      extractBrackets rp = some s → Json.parse s = some (.arr es) →
      Braintrust.generateSyntheticDataset (.ok rp) fb = .ok es) ∧
    (∀ (cfg : Braintrust.Config) (env : Braintrust.Env) (m : String),
      cfg.prompt ≠ "" → cfg.geminiKey = true →
      Braintrust.generateSyntheticDataset env.genPrimary env.genFallback = .error m →
      (Braintrust.pipeline cfg env).any (fun e => e.isErrorEvt) = true ∧
      (Braintrust.pipeline cfg env).all (fun e => ! e.isComplete) = true) := by
  refine ⟨?_, ?_, ?_, ?_, ?_⟩
  · intro rp rf h1 h2
    simp [Braintrust.generateSyntheticDataset, h1, h2]
  · intro rp rf s h1 h2 h3
    simp [Braintrust.generateSyntheticDataset, h1, h2, h3]
  · intro m rf s h1 h2
    simp [Braintrust.generateSyntheticDataset, h1, h2]
  · intro rp s es fb h1 h2
    simp [Braintrust.generateSyntheticDataset, h1, h2]
  · intro cfg env m hp hk hgen
    constructor
    · simp [Braintrust.pipeline, hp, hk, hgen, Braintrust.catchEvents,
        Braintrust.Event.isErrorEvt]
    · simp [Braintrust.pipeline, hp, hk, hgen, Braintrust.catchEvents,
        Braintrust.Event.isComplete]

/-- C5 witness: concrete instances for all five parts — bracketless
responses from both providers, the `SyntaxError` from an invalid-JSON
extracted substring (after a bracketless primary and after a primary
provider failure), the no-validation acceptance, and a full pipeline run
that ends in an `error` event with no `complete` event. -/
theorem C5_witness :
    Braintrust.generateSyntheticDataset (.ok "alas, no list") (.ok (some "still no list")) =
      .error "Failed to generate synthetic dataset with both Gemini and Groq" ∧
    Braintrust.generateSyntheticDataset (.ok "no list at all") (.ok (some "[1,2,]")) =
      .error "SyntaxError: Unexpected token in JSON" ∧
    Braintrust.generateSyntheticDataset (.error "gemini down") (.ok (some "[1,2,]")) =
      .error "SyntaxError: Unexpected token in JSON" ∧
    Braintrust.generateSyntheticDataset (.ok "[1,2,3]") (.error "unused2") =
      .ok [Json.num 1, Json.num 2, Json.num 3] ∧
    ((Braintrust.pipeline btCfg1
        { btEnvBase with genPrimary := .ok "no output", genFallback := .error "groq down" }).any
      (fun e => e.isErrorEvt) = true ∧
     (Braintrust.pipeline btCfg1
        { btEnvBase with genPrimary := .ok "no output", genFallback := .error "groq down" }).all
      (fun e => ! e.isComplete) = true) := by
  refine ⟨C5_amended.1 "alas, no list" "still no list" rfl rfl, ?_, ?_, ?_, ?_⟩
  · exact C5_amended.2.1 "no list at all" "[1,2,]" "[1,2,]" rfl rfl rfl
  · exact C5_amended.2.2.1 "gemini down" "[1,2,]" "[1,2,]" rfl rfl
  · exact C5_amended.2.2.2.1 "[1,2,3]" "[1,2,3]" [Json.num 1, Json.num 2, Json.num 3]
      (.error "unused2") rfl rfl
  · exact C5_amended.2.2.2.2 btCfg1
      { btEnvBase with genPrimary := .ok "no output", genFallback := .error "groq down" }
      "groq down" (by decide) rfl rfl

/-- C6 counterexample: a primary response that is received successfully but
contains no bracketed JSON array IS re-attempted against the secondary
provider — the generator's outcome depends on the secondary's answer. -/
theorem C6_counterexample :
    Langsmith.generateSyntheticDataset (.ok "no json here")
      (.ok (some "[\x7b\"input\": \"x\", \"rubric\": []\x7d]")) =
      .ok [Json.obj [("input", Json.str "x"), ("rubric", Json.arr [])]] ∧
    Langsmith.generateSyntheticDataset (.ok "no json here") (.error "groq down") =
      .error "groq down" := by
  exact ⟨rfl, rfl⟩

/-- C6 (amended): inside the generator the parse step is wrapped in the
same `try` as the primary provider call, so a successfully received primary
response that fails extraction or parsing behaves exactly like a primary
provider failure and triggers the single fallback to the secondary
provider; a primary response that parses is returned without consulting
the secondary. -/
theorem C6_amended :
    (∀ (t m : String) (fb : Except String (Option String)),
      parsedDatasetArray t = none →
      Langsmith.generateSyntheticDataset (.ok t) fb =
        Langsmith.generateSyntheticDataset (.error m) fb) ∧
    (∀ (t : String) (es : List Json) (fb : Except String (Option String)),
      parsedDatasetArray t = some es →
      Langsmith.generateSyntheticDataset (.ok t) fb = .ok es) := by
  constructor
  · intro t m fb h
    simp only [parsedDatasetArray] at h
    simp only [Langsmith.generateSyntheticDataset]
    rcases he : extractBrackets t with _ | s
    · simp only [he]
    · rcases hj : Json.parse s with _ | j
      · simp only [he, hj]
      · cases j with
        | arr es => simp only [he, hj] at h; simp at h
        | null => simp only [he, hj]
        | bool b => simp only [he, hj]
        | num q => simp only [he, hj]
        | str s2 => simp only [he, hj]
        | obj fs => simp only [he, hj]
  · intro t es fb h
    simp only [parsedDatasetArray] at h
    simp only [Langsmith.generateSyntheticDataset]
    rcases he : extractBrackets t with _ | s
    · simp [he] at h
    · rcases hj : Json.parse s with _ | j
      · simp [he, hj] at h
      · cases j with
        | arr es2 =>
          simp only [he, hj, Option.some.injEq] at h
          subst h
          simp only [he, hj]
        | null => simp [he, hj] at h
        | bool b => simp [he, hj] at h
        | num q => simp [he, hj] at h
        | str s2 => simp [he, hj] at h
        | obj fs => simp [he, hj] at h

/-- C6 witness: a bracketless primary response is treated as a primary
provider failure, and a parsing primary response is returned as-is. -/
theorem C6_witness :
    Langsmith.generateSyntheticDataset (.ok "nothing structured") (.error "groq down 2") =
      Langsmith.generateSyntheticDataset (.error "gemini down") (.error "groq down 2") ∧
    Langsmith.generateSyntheticDataset (.ok "here: [1]") (.error "groq down 2") =
      .ok [Json.num 1] := by
  exact ⟨C6_amended.1 "nothing structured" "gemini down" (.error "groq down 2") rfl,
    C6_amended.2 "here: [1]" [Json.num 1] (.error "groq down 2") rfl⟩

/-- C9 counterexample: the judge's parsed JSON is returned verbatim, so a
response whose `score` is 1 while a listed criterion is marked failed is
passed through unchanged — the claimed iff does not hold. -/
theorem C9_counterexample :
    Langsmith.judgeWithClaude [Json.str "c"]
      (.ok (some "\x7b\"score\": 1, \"rubricResults\": [\x7b\"criterion\": \"c\", \"passed\": false\x7d]\x7d")) =
      .ok (Json.obj [("score", Json.num 1),
        ("rubricResults", Json.arr [Json.obj [("criterion", Json.str "c"), ("passed", Json.bool false)]])]) ∧
    (Json.obj [("score", Json.num 1),
      ("rubricResults", Json.arr [Json.obj [("criterion", Json.str "c"), ("passed", Json.bool false)]])]).getField "score" =
      some (Json.num 1) ∧
    allRubricPassed (Json.obj [("score", Json.num 1),
      ("rubricResults", Json.arr [Json.obj [("criterion", Json.str "c"), ("passed", Json.bool false)]])]) = false := by
  exact ⟨rfl, rfl, rfl⟩

/-- C9 (amended): the score-iff-all-criteria-pass relation is requested in
the judge prompt but not enforced by the code: any parsed JSON is returned
verbatim; only the parse-failure fallback object is constructed by the
code, with score 0 and every listed criterion marked failed. -/
theorem C9_amended :
    (∀ (rubric : List Json) (t s : String) (j : Json),
      extractBraces t = some s → Json.parse s = some j →
      Langsmith.judgeWithClaude rubric (.ok (some t)) = .ok j) ∧
    (∀ (rubric : List Json) (t : String),
      extractBraces t = none →
      Langsmith.judgeWithClaude rubric (.ok (some t)) = .ok (Langsmith.fallbackJudge rubric) ∧
      (Langsmith.fallbackJudge rubric).getField "score" = some (Json.num 0) ∧
      allRubricFailed (Langsmith.fallbackJudge rubric) = true) := by
  constructor
  · intro rubric t s j h1 h2
    simp [Langsmith.judgeWithClaude, h1, h2]
  · intro rubric t h
    refine ⟨by simp [Langsmith.judgeWithClaude, h], rfl, allRubricFailed_fallbackJudge rubric⟩

/-- C9 witness: a braceless judge response yields the code-built fallback
object with score 0 and the single listed criterion failed. -/
theorem C9_witness :
    Langsmith.judgeWithClaude [Json.str "must state 4"] (.ok (some "cannot judge")) =
      .ok (Langsmith.fallbackJudge [Json.str "must state 4"]) ∧
    (Langsmith.fallbackJudge [Json.str "must state 4"]).getField "score" = some (Json.num 0) ∧
    allRubricFailed (Langsmith.fallbackJudge [Json.str "must state 4"]) = true := by
  exact C9_amended.2 [Json.str "must state 4"] "cannot judge" rfl

/-! ## Helper lemmas about the event streams -/

/-- Helper: a block of forwarded progress logs contains no terminal record. -/
theorem lsMapLogClean (l : List Log) :
    Langsmith.completePayloads (l.map Langsmith.Event.log) = [] ∧
    (l.map Langsmith.Event.log).any (fun e => e.isErrorEvt) = false ∧
    (l.map Langsmith.Event.log).all (fun e => ! e.isComplete) = true ∧
    (l.map Langsmith.Event.log).all (fun e => ! e.isErrorEvt) = true := by
  induction l with
  | nil => exact ⟨rfl, rfl, rfl, rfl⟩
  | cons a l ih =>
    refine ⟨?_, ?_, ?_, ?_⟩
    · simpa [Langsmith.completePayloads] using ih.1
    · simpa [Langsmith.Event.isErrorEvt] using ih.2.1
    · simpa [Langsmith.Event.isComplete] using ih.2.2.1
    · simpa [Langsmith.Event.isErrorEvt] using ih.2.2.2

/-- Helper: same for the braintrust route. -/
theorem btMapLogClean (l : List Log) :
    Braintrust.completePayloads (l.map Braintrust.Event.log) = [] ∧
    (l.map Braintrust.Event.log).any (fun e => e.isErrorEvt) = false ∧
    (l.map Braintrust.Event.log).all (fun e => ! e.isComplete) = true ∧
    (l.map Braintrust.Event.log).all (fun e => ! e.isErrorEvt) = true := by
  induction l with
  | nil => exact ⟨rfl, rfl, rfl, rfl⟩
  | cons a l ih =>
    refine ⟨?_, ?_, ?_, ?_⟩
    · simpa [Braintrust.completePayloads] using ih.1
    · simpa [Braintrust.Event.isErrorEvt] using ih.2.1
    · simpa [Braintrust.Event.isComplete] using ih.2.2.1
    · simpa [Braintrust.Event.isErrorEvt] using ih.2.2.2

/-- Helper: `completePayloads` ignores a leading log record. -/
theorem lsPayloadsConsLog (l : Log) (es : List Langsmith.Event) :
    Langsmith.completePayloads (Langsmith.Event.log l :: es) =
      Langsmith.completePayloads es := rfl

/-- Helper: `completePayloads` distributes over append. -/
theorem lsPayloadsAppend (a b : List Langsmith.Event) :
    Langsmith.completePayloads (a ++ b) =
      Langsmith.completePayloads a ++ Langsmith.completePayloads b := by
  simp [Langsmith.completePayloads]

theorem btPayloadsConsLog (l : Log) (es : List Braintrust.Event) :
    Braintrust.completePayloads (Braintrust.Event.log l :: es) =
      Braintrust.completePayloads es := rfl

theorem btPayloadsAppend (a b : List Braintrust.Event) :
    Braintrust.completePayloads (a ++ b) =
      Braintrust.completePayloads a ++ Braintrust.completePayloads b := by
  simp [Braintrust.completePayloads]

/-- Helper: a successful langsmith run up to phase 3 reduces the stream's
terminal behaviour to that of `afterTests`. -/
theorem lsPipelineRun (cfg : Langsmith.Config) (env : Langsmith.Env)
    (tcs : List Json) (results : List Langsmith.TestResult)
    (hp : cfg.prompt ≠ "") (hg : cfg.goal ≠ "") (hn : cfg.promptName ≠ "")
    (hk1 : cfg.geminiKey = true) (hk2 : cfg.langsmithKey = true)
    (hgen : Langsmith.generateSyntheticDataset env.genPrimary env.genFallback = .ok tcs)
    (hrun : (Langsmith.runTestsAux env.execPrimary env.execFallback env.judgeResp
      cfg.prompt tcs.length tcs 0).2 = .ok results) :
    Langsmith.completePayloads (Langsmith.pipeline cfg env) =
      Langsmith.completePayloads (Langsmith.afterTests cfg env
        (cfg.promptName ++ "-" ++ ("v" ++ toString env.nowMs)) tcs results) ∧
    (Langsmith.pipeline cfg env).any (fun e => e.isErrorEvt) =
      (Langsmith.afterTests cfg env
        (cfg.promptName ++ "-" ++ ("v" ++ toString env.nowMs)) tcs results).any
        (fun e => e.isErrorEvt) ∧
    (Langsmith.pipeline cfg env).all (fun e => ! e.isComplete) =
      (Langsmith.afterTests cfg env
        (cfg.promptName ++ "-" ++ ("v" ++ toString env.nowMs)) tcs results).all
        (fun e => ! e.isComplete) ∧
    (Langsmith.pipeline cfg env).all (fun e => ! e.isErrorEvt) =
      (Langsmith.afterTests cfg env
        (cfg.promptName ++ "-" ++ ("v" ++ toString env.nowMs)) tcs results).all
        (fun e => ! e.isErrorEvt) := by
  have hlog := lsMapLogClean (Langsmith.runTestsAux env.execPrimary env.execFallback
    env.judgeResp cfg.prompt tcs.length tcs 0).1
  refine ⟨?_, ?_, ?_, ?_⟩ <;>
    simp [Langsmith.pipeline, hp, hg, hn, hk1, hk2, hgen, hrun,
      lsPayloadsConsLog, lsPayloadsAppend, List.any_append, List.all_append,
      Langsmith.Event.isComplete, Langsmith.Event.isErrorEvt,
      hlog.1, hlog.2.1, hlog.2.2.1, hlog.2.2.2]

/-- Helper: same reduction for a successful braintrust run up to step 2. -/
theorem btPipelineRun (cfg : Braintrust.Config) (env : Braintrust.Env)
    (tcs : List Json) (results : List Braintrust.TestResult)
    (hp : cfg.prompt ≠ "") (hk : cfg.geminiKey = true)
    (hgen : Braintrust.generateSyntheticDataset env.genPrimary env.genFallback = .ok tcs)
    (hrun : (Braintrust.runTestsAux env.runResp env.factResp env.battleResp env.toneResp
      cfg.prompt tcs.length tcs 0).2 = .ok results) :
    Braintrust.completePayloads (Braintrust.pipeline cfg env) =
      Braintrust.completePayloads (Braintrust.afterTests cfg env tcs results) ∧
    (Braintrust.pipeline cfg env).any (fun e => e.isErrorEvt) =
      (Braintrust.afterTests cfg env tcs results).any (fun e => e.isErrorEvt) ∧
    (Braintrust.pipeline cfg env).all (fun e => ! e.isComplete) =
      (Braintrust.afterTests cfg env tcs results).all (fun e => ! e.isComplete) ∧
    (Braintrust.pipeline cfg env).all (fun e => ! e.isErrorEvt) =
      (Braintrust.afterTests cfg env tcs results).all (fun e => ! e.isErrorEvt) := by
  have hlog := btMapLogClean (Braintrust.runTestsAux env.runResp env.factResp env.battleResp
    env.toneResp cfg.prompt tcs.length tcs 0).1
  refine ⟨?_, ?_, ?_, ?_⟩ <;>
    simp [Braintrust.pipeline, hp, hk, hgen, hrun,
      btPayloadsConsLog, btPayloadsAppend, List.any_append, List.all_append,
      Braintrust.Event.isComplete, Braintrust.Event.isErrorEvt,
      hlog.1, hlog.2.1, hlog.2.2.1, hlog.2.2.2]

/-- Helper: `afterTests` in the braintrust route always ends in exactly one
`complete` record and never writes an `error` record. -/
theorem btAfterTestsShape (cfg : Braintrust.Config) (env : Braintrust.Env)
    (tcs : List Json) (results : List Braintrust.TestResult) :
    Braintrust.completePayloads (Braintrust.afterTests cfg env tcs results) =
      [{ prompt := cfg.prompt, summary := Braintrust.summaryOf results, results := results,
         improvedPrompts := (if 0 < (Braintrust.failedTests results).length
           then Braintrust.getImprovedPrompts env.improveResp else []).take 3,
         syntheticDataset := tcs }] ∧
    (Braintrust.afterTests cfg env tcs results).all (fun e => ! e.isErrorEvt) = true := by
  by_cases h : 0 < (Braintrust.failedTests results).length <;>
    constructor <;>
      simp [Braintrust.afterTests, Braintrust.completePayloads, h,
        Braintrust.Event.isErrorEvt]

/-- C1 counterexample: with one generated test case whose execution fails on
both providers, the langsmith pipeline aborts — it writes an `error` event
and never a `complete` event, instead of recording a zero-scored
ExecutionResult and continuing as claimed. -/
theorem C1_counterexample :
    (Langsmith.pipeline lsCfg1 lsEnvBothFail).any (fun e => e.isErrorEvt) = true ∧
    (Langsmith.pipeline lsCfg1 lsEnvBothFail).all (fun e => ! e.isComplete) = true := by
  exact ⟨rfl, rfl⟩

/-- C1 (amended): when only the primary provider fails, the recorded output
equals the fallback provider's text and the run continues; but when both
providers fail, the thrown error propagates out of
`executePromptWithGemini` and the pipeline aborts with an `error` event and
no `complete` event — no ExecutionResult with empty output and zero scores
is recorded for that test case. -/
theorem C1_amended :
    (∀ (primary : String → Except String String)
       (fallback : String → Except String (Option String)) (p i e t : String),
      primary (renderTemplate p i) = .error e →
      fallback (renderTemplate p i) = .ok (some t) →
      Langsmith.executePromptWithGemini primary fallback p i = .ok t) ∧
    (∀ (primary : String → Except String String)
       (fallback : String → Except String (Option String)) (p i e1 e2 : String),
      primary (renderTemplate p i) = .error e1 →
      fallback (renderTemplate p i) = .error e2 →
      Langsmith.executePromptWithGemini primary fallback p i = .error e2) ∧
    (∀ (cfg : Langsmith.Config) (env : Langsmith.Env) (j : Json) (rest : List Json)
       (tc : Langsmith.TestCase) (e1 e2 : String),
      cfg.prompt ≠ "" → cfg.goal ≠ "" → cfg.promptName ≠ "" →
      cfg.geminiKey = true → cfg.langsmithKey = true →
      Langsmith.generateSyntheticDataset env.genPrimary env.genFallback = .ok (j :: rest) →
      Langsmith.decodeTestCase j = some tc →
      env.execPrimary (renderTemplate cfg.prompt tc.input) = .error e1 →
      env.execFallback (renderTemplate cfg.prompt tc.input) = .error e2 →
      (Langsmith.pipeline cfg env).any (fun e => e.isErrorEvt) = true ∧
      (Langsmith.pipeline cfg env).all (fun e => ! e.isComplete) = true) := by
  refine ⟨?_, ?_, ?_⟩
  · intro primary fallback p i e t h1 h2
    simp [Langsmith.executePromptWithGemini, h1, h2]
  · intro primary fallback p i e1 e2 h1 h2
    simp [Langsmith.executePromptWithGemini, h1, h2]
  · intro cfg env j rest tc e1 e2 hp hg hn hk1 hk2 hgen hdec hx1 hx2
    have hexec : Langsmith.executePromptWithGemini env.execPrimary env.execFallback
        cfg.prompt tc.input = .error e2 := by
      simp [Langsmith.executePromptWithGemini, hx1, hx2]
    constructor <;>
      simp [Langsmith.pipeline, hp, hg, hn, hk1, hk2, hgen, Langsmith.runTestsAux, hdec,
        hexec, Langsmith.catchEvents, Langsmith.Event.isErrorEvt, Langsmith.Event.isComplete,
        List.any_append, List.all_append]

/-- C1 witness: concrete instances — primary down with fallback text
`"fallback text"` is recorded and execution succeeds; with both providers
down the run ends in an `error` event with no `complete` event. -/
theorem C1_witness :
    Langsmith.executePromptWithGemini lsEnvFallbackText.execPrimary
      lsEnvFallbackText.execFallback lsCfg1.prompt "2+2?" = .ok "fallback text" ∧
    Langsmith.executePromptWithGemini lsEnvBothFail.execPrimary
      lsEnvBothFail.execFallback lsCfg1.prompt "2+2?" = .error "fallback provider down" ∧
    ((Langsmith.pipeline lsCfg1 lsEnvBothFail).any (fun e => e.isErrorEvt) = true ∧
     (Langsmith.pipeline lsCfg1 lsEnvBothFail).all (fun e => ! e.isComplete) = true) := by
  refine ⟨?_, ?_, ?_⟩
  · exact C1_amended.1 lsEnvFallbackText.execPrimary lsEnvFallbackText.execFallback
      lsCfg1.prompt "2+2?" "primary provider down" "fallback text" rfl rfl
  · exact C1_amended.2.1 lsEnvBothFail.execPrimary lsEnvBothFail.execFallback
      lsCfg1.prompt "2+2?" "primary provider down" "fallback provider down" rfl rfl
  · exact C1_amended.2.2 lsCfg1 lsEnvBothFail lsTcJson []
      { input := "2+2?", rubric := [Json.str "must state 4"] }
      "primary provider down" "fallback provider down"
      (by decide) (by decide) (by decide) rfl rfl rfl rfl rfl rfl

/-- C7 counterexample: in the one-shot multi-candidate variant, a failing
test followed by an unparseable optimizer response does NOT surface any
error — the pipeline still completes, silently carrying an empty proposal
list. -/
theorem C7_counterexample :
    (Braintrust.pipeline btCfg1 btEnvFailing).all (fun e => ! e.isErrorEvt) = true ∧
    (Braintrust.completePayloads (Braintrust.pipeline btCfg1 btEnvFailing)).map
      (fun ev => (ev.improvedPrompts, ev.summary.failed_tests)) = [(([] : List Json), 1)] := by
  have hgen : Braintrust.generateSyntheticDataset btEnvFailing.genPrimary
      btEnvFailing.genFallback = .ok [btTcQ] := rfl
  have hrun : (Braintrust.runTestsAux btEnvFailing.runResp btEnvFailing.factResp
      btEnvFailing.battleResp btEnvFailing.toneResp btCfg1.prompt [btTcQ].length
      [btTcQ] 0).2 = .ok [btResFail] := rfl
  have himp : Braintrust.getImprovedPrompts btEnvFailing.improveResp = [] := rfl
  obtain ⟨h1, _, _, h4⟩ := btPipelineRun btCfg1 btEnvFailing [btTcQ] [btResFail]
    (by decide) rfl hgen hrun
  obtain ⟨hshape, hnoerr⟩ := btAfterTestsShape btCfg1 btEnvFailing [btTcQ] [btResFail]
  have hflen : (Braintrust.failedTests [btResFail]).length = 1 := by
    norm_num [Braintrust.failedTests, List.filter_cons, btResFail]
  constructor
  · rw [h4]; exact hnoerr
  · rw [h1, hshape]
    simp [hflen, himp, Braintrust.summaryOf, Braintrust.failedTests]
    norm_num [btResFail]

/-- C7 (amended): in the end-to-end pipeline the optimizer's parse failure
throws and the pipeline surfaces an `error` event with no `complete` event;
in the one-shot multi-candidate variant (`getImprovedPrompts`) a parse or
provider failure is silently replaced by the empty proposal list. -/
theorem C7_amended :
    (∀ s : String, extractBraces s = none →
      Langsmith.generateOptimizedPrompt (.ok (some s)) =
        .error "Failed to generate optimization") ∧
    (∀ (cfg : Langsmith.Config) (env : Langsmith.Env) (tcs : List Json)
       (results : List Langsmith.TestResult) (s : String),
      cfg.prompt ≠ "" → cfg.goal ≠ "" → cfg.promptName ≠ "" →
      cfg.geminiKey = true → cfg.langsmithKey = true →
      Langsmith.generateSyntheticDataset env.genPrimary env.genFallback = .ok tcs →
      (Langsmith.runTestsAux env.execPrimary env.execFallback env.judgeResp
        cfg.prompt tcs.length tcs 0).2 = .ok results →
      Langsmith.lsFailed results ≠ [] →
      env.optimizeResp = .ok (some s) → extractBraces s = none →
      (Langsmith.pipeline cfg env).any (fun e => e.isErrorEvt) = true ∧
      (Langsmith.pipeline cfg env).all (fun e => ! e.isComplete) = true) ∧
    (∀ s : String, extractBrackets s = none →
      Braintrust.getImprovedPrompts (.ok (some s)) = []) ∧
    (∀ m : String, Braintrust.getImprovedPrompts (.error m) = []) := by
  refine ⟨?_, ?_, ?_, ?_⟩
  · intro s h
    simp [Langsmith.generateOptimizedPrompt, h]
  · intro cfg env tcs results s hp hg hn hk1 hk2 hgen hrun hfail hopt hbr
    obtain ⟨_, h2, h3, _⟩ := lsPipelineRun cfg env tcs results hp hg hn hk1 hk2 hgen hrun
    have hlen : 0 < (Langsmith.lsFailed results).length := List.length_pos.mpr hfail
    constructor
    · rw [h2]
      simp [Langsmith.afterTests, hlen, hopt, hbr, Langsmith.generateOptimizedPrompt,
        Langsmith.catchEvents, Langsmith.Event.isErrorEvt]
    · rw [h3]
      simp [Langsmith.afterTests, hlen, hopt, hbr, Langsmith.generateOptimizedPrompt,
        Langsmith.catchEvents, Langsmith.Event.isComplete]
  · intro s h
    simp [Braintrust.getImprovedPrompts, h]
  · intro m
    simp [Braintrust.getImprovedPrompts]

/-- C7 witness: concrete instances — the end-to-end pipeline with a failing
judge and a braceless optimizer response surfaces an `error` event and
completes nothing; the one-shot variant defaults the same situation to
`[]`. -/
theorem C7_witness :
    Langsmith.generateOptimizedPrompt (.ok (some "no structured output")) =
      .error "Failed to generate optimization" ∧
    ((Langsmith.pipeline lsCfg1 lsEnvFailingJudgeBadOpt).any (fun e => e.isErrorEvt) = true ∧
     (Langsmith.pipeline lsCfg1 lsEnvFailingJudgeBadOpt).all (fun e => ! e.isComplete) = true) ∧
    Braintrust.getImprovedPrompts (.ok (some "no valid output")) = [] ∧
    Braintrust.getImprovedPrompts (.error "claude down") = [] := by
  refine ⟨C7_amended.1 "no structured output" rfl, ?_,
    C7_amended.2.2.1 "no valid output" rfl, C7_amended.2.2.2 "claude down"⟩
  exact C7_amended.2.1 lsCfg1 lsEnvFailingJudgeBadOpt lsDatasetJson _ "no structured output"
    (by decide) (by decide) (by decide) rfl rfl rfl rfl (List.cons_ne_nil _ _) rfl rfl

/-- C8: when zero test cases fail, the Optimizer is never invoked (the
pipeline's outcome is independent of the optimizer oracle) and the single
final `complete` record carries `optimizedPrompt` equal to the original
prompt and an empty `changes` list. -/
theorem C8_no_failures_no_optimizer (cfg : Langsmith.Config) (env : Langsmith.Env)
    (tcs : List Json) (results : List Langsmith.TestResult)
    (hp : cfg.prompt ≠ "") (hg : cfg.goal ≠ "") (hn : cfg.promptName ≠ "")
    (hk1 : cfg.geminiKey = true) (hk2 : cfg.langsmithKey = true)
    (hgen : Langsmith.generateSyntheticDataset env.genPrimary env.genFallback = .ok tcs)
    (hrun : (Langsmith.runTestsAux env.execPrimary env.execFallback env.judgeResp
      cfg.prompt tcs.length tcs 0).2 = .ok results)
    (hfail : Langsmith.lsFailed results = []) :
    (Langsmith.completePayloads (Langsmith.pipeline cfg env)).map
      (fun ev => (ev.optimizedPrompt, ev.changes)) = [(cfg.prompt, ([] : List Json))] ∧
    ∀ alt, Langsmith.pipeline cfg { env with optimizeResp := alt } =
      Langsmith.pipeline cfg env := by
  constructor
  · rw [(lsPipelineRun cfg env tcs results hp hg hn hk1 hk2 hgen hrun).1]
    simp [Langsmith.afterTests, hfail, Langsmith.completePayloads, Langsmith.completeEvent]
  · intro alt
    simp [Langsmith.pipeline, Langsmith.afterTests, hp, hg, hn, hk1, hk2, hgen, hrun, hfail]

/-- C8 witness: a run in which the single test case passes — the complete
record repeats the original prompt with no changes, and replacing the
optimizer oracle does not change the stream. -/
theorem C8_witness :
    (Langsmith.completePayloads (Langsmith.pipeline lsCfg1 lsEnvBase)).map
      (fun ev => (ev.optimizedPrompt, ev.changes)) = [(lsCfg1.prompt, ([] : List Json))] ∧
    ∀ alt, Langsmith.pipeline lsCfg1 { lsEnvBase with optimizeResp := alt } =
      Langsmith.pipeline lsCfg1 lsEnvBase := by
  exact C8_no_failures_no_optimizer lsCfg1 lsEnvBase lsDatasetJson _
    (by decide) (by decide) (by decide) rfl rfl rfl rfl rfl

/-- C10: when the generator returns an empty test-case list, both routes
still emit a `complete` event (no crash, no error event in the braintrust
route), but the rate fields are computed with an unguarded division by the
zero result count, so they are the string `"NaN"`. -/
theorem C10_zero_results_nan :
    (∀ (cfg : Braintrust.Config) (env : Braintrust.Env),
      cfg.prompt ≠ "" → cfg.geminiKey = true →
      Braintrust.generateSyntheticDataset env.genPrimary env.genFallback = .ok [] →
      (Braintrust.completePayloads (Braintrust.pipeline cfg env)).map
        (fun ev => (ev.summary.success_rate, ev.summary.average_score)) = [("NaN", "NaN")] ∧
      (Braintrust.pipeline cfg env).all (fun e => ! e.isErrorEvt) = true) ∧
    (∀ (cfg : Langsmith.Config) (env : Langsmith.Env),
      cfg.prompt ≠ "" → cfg.goal ≠ "" → cfg.promptName ≠ "" →
      cfg.geminiKey = true → cfg.langsmithKey = true →
      Langsmith.generateSyntheticDataset env.genPrimary env.genFallback = .ok [] →
      (Langsmith.completePayloads (Langsmith.pipeline cfg env)).map
        (fun ev => ev.metrics.originalPassRate) = ["NaN"]) := by
  constructor
  · intro cfg env hp hk hgen
    have hrun : (Braintrust.runTestsAux env.runResp env.factResp env.battleResp env.toneResp
        cfg.prompt (List.length ([] : List Json)) [] 0).2 = .ok [] := rfl
    obtain ⟨h1, _, _, h4⟩ := btPipelineRun cfg env [] [] hp hk hgen hrun
    obtain ⟨hshape, hnoerr⟩ := btAfterTestsShape cfg env [] []
    constructor
    · rw [h1, hshape]
      simp [Braintrust.summaryOf, Braintrust.failedTests, jsDiv, jsMul100, toFixed1]
    · rw [h4]
      exact hnoerr
  · intro cfg env hp hg hn hk1 hk2 hgen
    have hrun : (Langsmith.runTestsAux env.execPrimary env.execFallback env.judgeResp
        cfg.prompt (List.length ([] : List Json)) [] 0).2 = .ok [] := rfl
    rw [(lsPipelineRun cfg env [] [] hp hg hn hk1 hk2 hgen hrun).1]
    simp [Langsmith.afterTests, Langsmith.lsFailed, Langsmith.completePayloads,
      Langsmith.completeEvent, jsDiv, jsMul100, toFixed1]

/-- C10 witness: concrete empty-dataset runs for both routes. -/
theorem C10_witness :
    ((Braintrust.completePayloads (Braintrust.pipeline btCfg1 btEnvEmptyDataset)).map
      (fun ev => (ev.summary.success_rate, ev.summary.average_score)) = [("NaN", "NaN")] ∧
     (Braintrust.pipeline btCfg1 btEnvEmptyDataset).all (fun e => ! e.isErrorEvt) = true) ∧
    (Langsmith.completePayloads (Langsmith.pipeline lsCfg1 lsEnvEmptyDataset)).map
      (fun ev => ev.metrics.originalPassRate) = ["NaN"] := by
  exact ⟨C10_zero_results_nan.1 btCfg1 btEnvEmptyDataset (by decide) rfl rfl,
    C10_zero_results_nan.2 lsCfg1 lsEnvEmptyDataset
      (by decide) (by decide) (by decide) rfl rfl rfl⟩

end PromptOpt
